import Mathlib

/-!
Verification of the GitButler `TargetWriter`
(`src-tauri/src/virtual_branches/target/writer.rs`).

The writer persists a `Target` value (upstream branch name, remote name,
remote url, commit sha) as four individual files inside a session-guarded,
lock-protected directory store.  We embed the writer shallowly:

* the store is a flat map from relative path strings to file contents,
  following the spec's flat key-value layout for the `DirWriter`
  collaborator (which is not part of the source under verification);
* the session manager, lock manager and `DirWriter.write_string`
  collaborators are modelled from the spec by an `Env` of outcomes:
  whether ensuring a session succeeds, whether the lock can be acquired,
  which individual path writes succeed, and whether the unlock succeeds;
* a call returns an `Outcome` (success, error value, or panic — the
  source unlocks via `.expect(...)`, which panics on failure), the
  resulting store, and the trace of attempted field-write paths.
-/

namespace GitButler

/-- Lower-case hexadecimal digit character for `n < 16`
(`0`–`9` then `a`–`f`), as produced by `git2::Oid`'s display. -/
def hexChar (n : Nat) : Char :=
  if n < 10 then Char.ofNat (48 + n) else Char.ofNat (87 + n)

/-- A git object id: a sequence of bytes (20 for a well-formed commit id).
Bytes are `Nat`s taken mod 256 where rendered. -/
structure Oid where
  bytes : List Nat
deriving DecidableEq

/-- Canonical rendering of an object id, two lowercase hex digits per
byte, as produced by `sha.to_string()` in the source. -/
def Oid.toHex (o : Oid) : String :=
  ⟨(o.bytes.map (fun b => [hexChar (b / 16 % 16), hexChar (b % 16)])).flatten⟩

/-- The `Target` entity from `virtual_branches/target`: the upstream
tracking reference a branch integrates against. -/
structure Target where
  branch_name : String
  remote_name : String
  remote_url : String
  sha : Oid
  behind : Nat
deriving DecidableEq

/-- Modelled from the spec: the store the `DirWriter`, session manager
and lock manager collaborators act on — a flat map from relative path
strings to file contents, plus the lock and session flags. -/
structure Store where
  files : String → Option String
  locked : Bool
  sessionOpen : Bool

/-- Modelled from the spec: the outcomes of the collaborator operations
during one call — whether `get_or_create_current_session` succeeds,
whether the lock primitive can acquire, which relative paths
`DirWriter.write_string` succeeds on, and whether `unlock` succeeds. -/
structure Env where
  sessionOk : Bool
  lockOk : Bool
  writeOk : String → Bool
  unlockOk : Bool

/-- The environment in which every collaborator operation succeeds. -/
def Env.allOk : Env :=
  { sessionOk := true, lockOk := true, writeOk := fun _ => true, unlockOk := true }

/-- Errors a call can return (each carries the `.context(...)` string the
source attaches, and for a field write also the failing path). -/
inductive WriterError where
  | sessionFailed (ctx : String)
  | lockFailed
  | writeFailed (path ctx : String)
deriving DecidableEq

/-- Result of a call: success, a returned (recoverable) error value, or a
panic (the source's `.expect("Failed to unlock repository")`). -/
inductive Outcome where
  | ok
  | err (e : WriterError)
  | panicked (msg : String)
deriving DecidableEq

/-- Pointwise update of a file map. -/
def upd (f : String → Option String) (p v : String) : String → Option String :=
  fun q => if q = p then some v else f q

/-- Modelled from the spec: `DirWriter.write_string` — writes `content`
at relative path `path`, overwriting any existing content. -/
def setFile (s : Store) (path content : String) : Store :=
  { s with files := upd s.files path content }

/-- One field write of the source: relative path, content, and the
`.context(...)` string attached to its failure. -/
abbrev FieldWrite := String × String × String

/-- Run a sequence of field writes in order, stopping at the first
failure (the source's `?` operator).  Returns the outcome, the resulting
store, and the trace of attempted paths. -/
def runFieldWrites (env : Env) : Store → List FieldWrite → Outcome × Store × List String
  | s, [] => (.ok, s, [])
  | s, (p, v, c) :: rest =>
    if env.writeOk p then
      match runFieldWrites env (setFile s p v) rest with
      | (out, s2, tr) => (out, s2, p :: tr)
    else
      (.err (.writeFailed p c), s, [p])

/-- The guard shared by `write_default` and `write` in the source:
ensure a session (`get_or_create_current_session`), acquire the lock,
run the field writes, and release the lock via the deferred
`unlock().expect(...)` on every exit path of the write sequence.
Lock acquisition is modelled from the spec as succeeding when the
primitive works and the lock is free; a failed unlock panics. -/
def runGuarded (env : Env) (s : Store) (fields : List FieldWrite) :
    Outcome × Store × List String :=
  if env.sessionOk then
    let s1 : Store := { s with sessionOpen := true }
    if env.lockOk && !s1.locked then
      let s2 : Store := { s1 with locked := true }
      let r := runFieldWrites env s2 fields
      if env.unlockOk then (r.1, { r.2.1 with locked := false }, r.2.2)
      else (.panicked "Failed to unlock repository", r.2.1, r.2.2)
    else (.err .lockFailed, s1, [])
  else (.err (.sessionFailed "Failed to get or create current session"), s, [])

/-- The four field writes of `write_default`, in source order, with the
source's paths and `.context(...)` strings (including the duplicated
"remote name " context on the `remote_url` write). -/
def defaultTargetWrites (t : Target) : List FieldWrite :=
  [ ("branches/target/branch_name", t.branch_name,
      "Failed to write default target branch name"),
    ("branches/target/remote_name", t.remote_name,
      "Failed to write default target remote name "),
    ("branches/target/remote_url", t.remote_url,
      "Failed to write default target remote name "),
    ("branches/target/sha", t.sha.toHex,
      "Failed to write default target sha") ]

/-- The four field writes of `write`, in source order, with the source's
`format!("branches/{}/target/...", id)` paths and `.context(...)`
strings (including the duplicated "remote" context on the `remote_url`
write). -/
def scopedTargetWrites (id : String) (t : Target) : List FieldWrite :=
  [ ("branches/" ++ id ++ "/target/branch_name", t.branch_name,
      "Failed to write branch target branch name"),
    ("branches/" ++ id ++ "/target/remote_name", t.remote_name,
      "Failed to write branch target remote"),
    ("branches/" ++ id ++ "/target/remote_url", t.remote_url,
      "Failed to write branch target remote"),
    ("branches/" ++ id ++ "/target/sha", t.sha.toHex,
      "Failed to write branch target sha") ]

/-- The four persisted paths of the default target. -/
def defaultTargetPaths : List String :=
  [ "branches/target/branch_name", "branches/target/remote_name",
    "branches/target/remote_url", "branches/target/sha" ]

/-- The four persisted paths of the target scoped under `id`. -/
def scopedTargetPaths (id : String) : List String :=
  [ "branches/" ++ id ++ "/target/branch_name",
    "branches/" ++ id ++ "/target/remote_name",
    "branches/" ++ id ++ "/target/remote_url",
    "branches/" ++ id ++ "/target/sha" ]

namespace TargetWriter

/-- `TargetWriter::write_default` from the source. -/
def write_default (env : Env) (s : Store) (t : Target) :
    Outcome × Store × List String :=
  runGuarded env s (defaultTargetWrites t)

/-- `TargetWriter::write` from the source. -/
def write (env : Env) (s : Store) (id : String) (t : Target) :
    Outcome × Store × List String :=
  runGuarded env s (scopedTargetWrites id t)

end TargetWriter

/-! ### Path arithmetic

The four field names contain no slash and follow the final slash of
their path, so the last slash-free component of a path determines the
field, and slash counts separate default paths (2 slashes) from scoped
paths (at least 3).  These lemmas settle all disjointness questions
about the layout. -/

/-- The characters of a path after its last slash, reversed. -/
def lastCompRev (l : List Char) : List Char :=
  l.reverse.takeWhile (fun c => c != '/')

theorem lastCompRev_append (x : List Char) {lit f rest : List Char}
    (hs : lit.reverse = f ++ '/' :: rest)
    (hf : ∀ c ∈ f, (c != '/') = true) :
    lastCompRev (x ++ lit) = f := by
  unfold lastCompRev
  rw [List.reverse_append, hs, List.append_assoc, List.takeWhile_append,
    List.takeWhile_eq_self_iff.mpr hf]
  simp [List.takeWhile_cons]

theorem scoped_lit_inj {id a b : String}
    (h : "branches/" ++ id ++ a = "branches/" ++ id ++ b) : a = b := by
  have hd : ("branches/" ++ id ++ a).data = ("branches/" ++ id ++ b).data := by rw [h]
  simp only [String.data_append] at hd
  rw [List.append_assoc, List.append_assoc] at hd
  have h1 := (List.append_right_inj _).mp hd
  have h2 := (List.append_right_inj _).mp h1
  exact congrArg String.mk h2

theorem scoped_ne_of_lit_ne (id : String) {a b : String} (h : a ≠ b) :
    "branches/" ++ id ++ a ≠ "branches/" ++ id ++ b :=
  fun hh => h (scoped_lit_inj hh)

theorem scoped_eq_ids {id1 id2 a : String}
    (h : "branches/" ++ id1 ++ a = "branches/" ++ id2 ++ a) : id1 = id2 := by
  have hd : ("branches/" ++ id1 ++ a).data = ("branches/" ++ id2 ++ a).data := by rw [h]
  simp only [String.data_append] at hd
  rw [List.append_assoc, List.append_assoc] at hd
  have h1 := (List.append_right_inj _).mp hd
  have h2 := (List.append_left_inj _).mp h1
  exact congrArg String.mk h2

theorem scoped_ne_fields {id1 id2 a b : String} {fa ra fb rb : List Char}
    (hsa : a.data.reverse = fa ++ '/' :: ra) (hfa : ∀ c ∈ fa, (c != '/') = true)
    (hsb : b.data.reverse = fb ++ '/' :: rb) (hfb : ∀ c ∈ fb, (c != '/') = true)
    (hne : fa ≠ fb)
    (h : "branches/" ++ id1 ++ a = "branches/" ++ id2 ++ b) : False := by
  have hd : ("branches/" ++ id1 ++ a).data = ("branches/" ++ id2 ++ b).data := by rw [h]
  simp only [String.data_append] at hd
  have h2 : lastCompRev (("branches/".data ++ id1.data) ++ a.data)
      = lastCompRev (("branches/".data ++ id2.data) ++ b.data) := by rw [hd]
  rw [lastCompRev_append _ hsa hfa, lastCompRev_append _ hsb hfb] at h2
  exact hne h2

theorem scoped_slash_count (id a : String) :
    ("branches/" ++ id ++ a).data.count '/'
      = 1 + id.data.count '/' + a.data.count '/' := by
  simp only [String.data_append, List.count_append]
  rw [show ("branches/".data).count '/' = 1 from by decide]

theorem scoped_ne_default {id a d : String} (ha : a.data.count '/' = 2)
    (hd : d.data.count '/' = 2) (h : "branches/" ++ id ++ a = d) : False := by
  have hc : ("branches/" ++ id ++ a).data.count '/' = d.data.count '/' := by rw [h]
  rw [scoped_slash_count, ha, hd] at hc
  omega

theorem meta_ne_target {id leaf lit : String}
    (hlit : lit.data.take 6 ≠ "/meta/".data)
    (h : "branches/" ++ id ++ "/meta/" ++ leaf = "branches/" ++ id ++ lit) :
    False := by
  have hd : ("branches/" ++ id ++ "/meta/" ++ leaf).data
      = ("branches/" ++ id ++ lit).data := by rw [h]
  simp only [String.data_append] at hd
  rw [List.append_assoc ("branches/".data ++ id.data)] at hd
  have h1 := (List.append_right_inj _).mp hd
  apply hlit
  rw [← h1, show (6 : Nat) = ("/meta/".data).length from by decide]
  exact List.take_left ..

/-! ### Operational lemmas about the write sequence -/

/-- The file map produced by applying a list of field writes in order. -/
def applyWrites : List FieldWrite → (String → Option String) → (String → Option String)
  | [], f => f
  | (p, v, _) :: rest, f => applyWrites rest (upd f p v)

theorem runFieldWrites_allOk (env : Env) (fs : List FieldWrite)
    (h : ∀ e ∈ fs, env.writeOk e.1 = true) (s : Store) :
    runFieldWrites env s fs
      = (.ok, { s with files := applyWrites fs s.files }, fs.map (fun e => e.1)) := by
  induction fs generalizing s with
  | nil => simp [runFieldWrites, applyWrites]
  | cons e rest ih =>
    obtain ⟨p, v, c⟩ := e
    have hp : env.writeOk p = true := h _ (List.mem_cons_self ..)
    have hrest : ∀ e ∈ rest, env.writeOk e.1 = true :=
      fun e he => h e (List.mem_cons_of_mem _ he)
    simp [runFieldWrites, hp, ih hrest, applyWrites, setFile]

theorem runFieldWrites_locked (env : Env) (s : Store) (fs : List FieldWrite) :
    ((runFieldWrites env s fs).2.1).locked = s.locked := by
  induction fs generalizing s with
  | nil => simp [runFieldWrites]
  | cons e rest ih =>
    obtain ⟨p, v, c⟩ := e
    by_cases hp : env.writeOk p = true
    · simpa [runFieldWrites, hp, setFile] using ih (setFile s p v)
    · simp [runFieldWrites, Bool.of_not_eq_true hp]

theorem runFieldWrites_sessionOpen (env : Env) (s : Store) (fs : List FieldWrite) :
    ((runFieldWrites env s fs).2.1).sessionOpen = s.sessionOpen := by
  induction fs generalizing s with
  | nil => simp [runFieldWrites]
  | cons e rest ih =>
    obtain ⟨p, v, c⟩ := e
    by_cases hp : env.writeOk p = true
    · simpa [runFieldWrites, hp, setFile] using ih (setFile s p v)
    · simp [runFieldWrites, Bool.of_not_eq_true hp]

theorem runFieldWrites_frame (env : Env) (s : Store) (fs : List FieldWrite)
    (q : String) (h : ∀ e ∈ fs, e.1 ≠ q) :
    ((runFieldWrites env s fs).2.1).files q = s.files q := by
  induction fs generalizing s with
  | nil => simp [runFieldWrites]
  | cons e rest ih =>
    obtain ⟨p, v, c⟩ := e
    have hp : p ≠ q := h _ (List.mem_cons_self ..)
    have hrest : ∀ e ∈ rest, e.1 ≠ q := fun e he => h e (List.mem_cons_of_mem _ he)
    by_cases hw : env.writeOk p = true
    · have hfr := ih (setFile s p v) hrest
      have h2 : (setFile s p v).files q = s.files q := by
        simp [setFile, upd, Ne.symm hp]
      rw [h2] at hfr
      rcases hr : runFieldWrites env (setFile s p v) rest with ⟨o2, s2, tr2⟩
      rw [hr] at hfr
      simp only [runFieldWrites, hw, if_true, hr]
      simpa using hfr
    · simp [runFieldWrites, Bool.of_not_eq_true hw]

theorem runFieldWrites_not_lockFailed (env : Env) (s : Store) (fs : List FieldWrite) :
    (runFieldWrites env s fs).1 ≠ .err .lockFailed := by
  induction fs generalizing s with
  | nil => simp [runFieldWrites]
  | cons e rest ih =>
    obtain ⟨p, v, c⟩ := e
    by_cases hw : env.writeOk p = true
    · have := ih (setFile s p v)
      simp only [runFieldWrites, hw, if_true]
      rcases hr : runFieldWrites env (setFile s p v) rest with ⟨out, s2, tr⟩
      rw [hr] at this
      simpa using this
    · simp [runFieldWrites, Bool.of_not_eq_true hw]

theorem runGuarded_allOk (env : Env) (s : Store) (fs : List FieldWrite)
    (hs : env.sessionOk = true) (hl : env.lockOk = true) (hlk : s.locked = false)
    (hu : env.unlockOk = true) (h : ∀ e ∈ fs, env.writeOk e.1 = true) :
    runGuarded env s fs
      = (.ok, { files := applyWrites fs s.files, locked := false, sessionOpen := true },
          fs.map (fun e => e.1)) := by
  simp [runGuarded, hs, hl, hlk, hu, runFieldWrites_allOk env fs h]

theorem runGuarded_frame (env : Env) (s : Store) (fs : List FieldWrite)
    (q : String) (h : ∀ e ∈ fs, e.1 ≠ q) :
    ((runGuarded env s fs).2.1).files q = s.files q := by
  have hfr := runFieldWrites_frame env ⟨s.files, true, true⟩ fs q h
  unfold runGuarded
  by_cases hs : env.sessionOk = true
  · by_cases hlo : env.lockOk = true
    · by_cases hlk : s.locked = true
      · simp [hs, hlo, hlk]
      · have hlk2 : s.locked = false := by revert hlk; cases s.locked <;> simp
        by_cases hu : env.unlockOk = true <;>
          simp [hs, hlo, hlk2, hu] <;> simpa using hfr
    · simp [hs, hlo]
  · simp [hs]

theorem runGuarded_locked_false (env : Env) (s : Store) (fs : List FieldWrite)
    (hs : env.sessionOk = true) (hl : env.lockOk = true) (hlk : s.locked = false)
    (hu : env.unlockOk = true) :
    ((runGuarded env s fs).2.1).locked = false := by
  simp [runGuarded, hs, hl, hlk, hu]

theorem runGuarded_not_lockFailed (env : Env) (s : Store) (fs : List FieldWrite)
    (hs : env.sessionOk = true) (hl : env.lockOk = true) (hlk : s.locked = false) :
    (runGuarded env s fs).1 ≠ .err .lockFailed := by
  have hnf := runFieldWrites_not_lockFailed env ⟨s.files, true, true⟩ fs
  unfold runGuarded
  by_cases hu : env.unlockOk = true
  · simp [hs, hl, hlk, hu]
    simpa using hnf
  · simp [hs, hl, hlk, hu]

theorem applyWrites_quad (p1 v1 c1 p2 v2 c2 p3 v3 c3 p4 v4 c4 q : String)
    (f : String → Option String) :
    applyWrites [(p1, v1, c1), (p2, v2, c2), (p3, v3, c3), (p4, v4, c4)] f q
      = if q = p4 then some v4 else if q = p3 then some v3
        else if q = p2 then some v2 else if q = p1 then some v1 else f q := by
  simp [applyWrites, upd]

theorem defaultWrites_writeOk {env : Env}
    (h : ∀ p ∈ defaultTargetPaths, env.writeOk p = true) (t : Target) :
    ∀ e ∈ defaultTargetWrites t, env.writeOk e.1 = true := by
  intro e he
  simp only [defaultTargetWrites, List.mem_cons, List.not_mem_nil, or_false] at he
  rcases he with rfl | rfl | rfl | rfl <;> exact h _ (by simp [defaultTargetPaths])

theorem scopedWrites_writeOk {env : Env} {id : String}
    (h : ∀ p ∈ scopedTargetPaths id, env.writeOk p = true) (t : Target) :
    ∀ e ∈ scopedTargetWrites id t, env.writeOk e.1 = true := by
  intro e he
  simp only [scopedTargetWrites, List.mem_cons, List.not_mem_nil, or_false] at he
  rcases he with rfl | rfl | rfl | rfl <;> exact h _ (by simp [scopedTargetPaths])

/-! ### The hex rendering of an object id -/

/-- Whether a character is a lowercase hexadecimal digit. -/
def isLowerHexDigit (c : Char) : Bool := "0123456789abcdef".data.contains c

theorem hexChar_lowerHex : ∀ n < 16, isLowerHexDigit (hexChar n) = true := by decide

theorem hexFlatten_length (l : List Nat) :
    ((l.map (fun b => [hexChar (b / 16 % 16), hexChar (b % 16)])).flatten).length
      = 2 * l.length := by
  induction l with
  | nil => simp
  | cons b rest ih => simp [ih]; omega

theorem Oid.toHex_length (o : Oid) (h : o.bytes.length = 20) :
    o.toHex.length = 40 := by
  show ((o.bytes.map (fun b => [hexChar (b / 16 % 16), hexChar (b % 16)])).flatten).length = 40
  rw [hexFlatten_length, h]

theorem Oid.toHex_lowerHex (o : Oid) :
    ∀ c ∈ o.toHex.data, isLowerHexDigit c = true := by
  intro c hc
  simp only [Oid.toHex, List.mem_flatten, List.mem_map] at hc
  obtain ⟨l, ⟨b, _, rfl⟩, hcl⟩ := hc
  have h16 : ∀ m : Nat, m % 16 < 16 := fun m => Nat.mod_lt m (by omega)
  simp only [List.mem_cons, List.not_mem_nil, or_false] at hcl
  rcases hcl with rfl | rfl
  · exact hexChar_lowerHex _ (h16 _)
  · exact hexChar_lowerHex _ (h16 _)

/-! ### Concrete fixtures used by witnesses and counterexamples -/

/-- The empty store: no files, unlocked, no session. -/
def emptyStore : Store := { files := fun _ => none, locked := false, sessionOpen := false }

/-- The commit id `0123456789abcdef0123456789abcdef01234567` of the tests. -/
def oid1 : Oid :=
  ⟨[1, 35, 69, 103, 137, 171, 205, 239, 1, 35, 69, 103, 137, 171, 205, 239,
    1, 35, 69, 103]⟩

/-- The commit id `fedcba9876543210fedcba9876543210fedcba98` of the tests. -/
def oid2 : Oid :=
  ⟨[254, 220, 186, 152, 118, 84, 50, 16, 254, 220, 186, 152, 118, 84, 50, 16,
    254, 220, 186, 152]⟩

/-- The spec's concrete-scenario target. -/
def sampleTarget : Target :=
  { branch_name := "main", remote_name := "origin",
    remote_url := "https://example.com/repo.git", sha := oid1, behind := 0 }

/-- The updated target of the `test_should_update` test. -/
def updatedTarget : Target :=
  { branch_name := "updated branch name", remote_name := "updated remote name",
    remote_url := "updated remote url", sha := oid2, behind := 0 }

theorem defaultWrites_ne {p : String} (hp : p ∉ defaultTargetPaths) (t : Target) :
    ∀ e ∈ defaultTargetWrites t, e.1 ≠ p := by
  intro e he
  simp only [defaultTargetPaths, List.mem_cons, List.not_mem_nil, or_false] at hp
  push_neg at hp
  obtain ⟨h1, h2, h3, h4⟩ := hp
  simp only [defaultTargetWrites, List.mem_cons, List.not_mem_nil, or_false] at he
  rcases he with rfl | rfl | rfl | rfl
  exacts [Ne.symm h1, Ne.symm h2, Ne.symm h3, Ne.symm h4]

theorem scopedWrites_ne {p : String} {id : String} (hp : p ∉ scopedTargetPaths id)
    (t : Target) : ∀ e ∈ scopedTargetWrites id t, e.1 ≠ p := by
  intro e he
  simp only [scopedTargetPaths, List.mem_cons, List.not_mem_nil, or_false] at hp
  push_neg at hp
  obtain ⟨h1, h2, h3, h4⟩ := hp
  simp only [scopedTargetWrites, List.mem_cons, List.not_mem_nil, or_false] at he
  rcases he with rfl | rfl | rfl | rfl
  exacts [Ne.symm h1, Ne.symm h2, Ne.symm h3, Ne.symm h4]

/-- C1: a successful `write_default` stores `t.branch_name`,
`t.remote_name`, `t.remote_url` and the canonical lowercase hex
rendering of `t.sha` at the four paths `branches/target/*`, and a
successful `write id` stores the same four values at the four paths
`branches/{id}/target/*`; reading each path back yields exactly the
field's value, no other path is touched, and for a 20-byte sha the
stored rendering is 40 lowercase hex characters. -/
theorem C1_round_trip (env : Env) (s : Store) (t : Target) (id : String)
    (hs : env.sessionOk = true) (hl : env.lockOk = true)
    (hlk : s.locked = false) (hu : env.unlockOk = true)
    (hwd : ∀ p ∈ defaultTargetPaths, env.writeOk p = true)
    (hws : ∀ p ∈ scopedTargetPaths id, env.writeOk p = true)
    (h20 : t.sha.bytes.length = 20) :
    ((TargetWriter.write_default env s t).1 = .ok
      ∧ (TargetWriter.write_default env s t).2.1.files "branches/target/branch_name"
          = some t.branch_name
      ∧ (TargetWriter.write_default env s t).2.1.files "branches/target/remote_name"
          = some t.remote_name
      ∧ (TargetWriter.write_default env s t).2.1.files "branches/target/remote_url"
          = some t.remote_url
      ∧ (TargetWriter.write_default env s t).2.1.files "branches/target/sha"
          = some t.sha.toHex
      ∧ ∀ p, p ∉ defaultTargetPaths →
          (TargetWriter.write_default env s t).2.1.files p = s.files p)
    ∧ ((TargetWriter.write env s id t).1 = .ok
      ∧ (TargetWriter.write env s id t).2.1.files
          ("branches/" ++ id ++ "/target/branch_name") = some t.branch_name
      ∧ (TargetWriter.write env s id t).2.1.files
          ("branches/" ++ id ++ "/target/remote_name") = some t.remote_name
      ∧ (TargetWriter.write env s id t).2.1.files
          ("branches/" ++ id ++ "/target/remote_url") = some t.remote_url
      ∧ (TargetWriter.write env s id t).2.1.files
          ("branches/" ++ id ++ "/target/sha") = some t.sha.toHex
      ∧ ∀ p, p ∉ scopedTargetPaths id →
          (TargetWriter.write env s id t).2.1.files p = s.files p)
    ∧ (t.sha.toHex.length = 40
      ∧ ∀ c ∈ t.sha.toHex.data, isLowerHexDigit c = true) := by
  obtain ⟨d12, d13, d14, d23, d24, d34⟩ :
      ("branches/target/branch_name" : String) ≠ "branches/target/remote_name"
    ∧ ("branches/target/branch_name" : String) ≠ "branches/target/remote_url"
    ∧ ("branches/target/branch_name" : String) ≠ "branches/target/sha"
    ∧ ("branches/target/remote_name" : String) ≠ "branches/target/remote_url"
    ∧ ("branches/target/remote_name" : String) ≠ "branches/target/sha"
    ∧ ("branches/target/remote_url" : String) ≠ "branches/target/sha" := by
    refine ⟨?_, ?_, ?_, ?_, ?_, ?_⟩ <;> decide
  have s12 := scoped_ne_of_lit_ne id
    (show ("/target/branch_name" : String) ≠ "/target/remote_name" by decide)
  have s13 := scoped_ne_of_lit_ne id
    (show ("/target/branch_name" : String) ≠ "/target/remote_url" by decide)
  have s14 := scoped_ne_of_lit_ne id
    (show ("/target/branch_name" : String) ≠ "/target/sha" by decide)
  have s23 := scoped_ne_of_lit_ne id
    (show ("/target/remote_name" : String) ≠ "/target/remote_url" by decide)
  have s24 := scoped_ne_of_lit_ne id
    (show ("/target/remote_name" : String) ≠ "/target/sha" by decide)
  have s34 := scoped_ne_of_lit_ne id
    (show ("/target/remote_url" : String) ≠ "/target/sha" by decide)
  have hd := runGuarded_allOk env s (defaultTargetWrites t) hs hl hlk hu
    (defaultWrites_writeOk hwd t)
  have hsc := runGuarded_allOk env s (scopedTargetWrites id t) hs hl hlk hu
    (scopedWrites_writeOk hws t)
  refine ⟨⟨?_, ?_, ?_, ?_, ?_, ?_⟩, ⟨?_, ?_, ?_, ?_, ?_, ?_⟩,
    Oid.toHex_length t.sha h20, Oid.toHex_lowerHex t.sha⟩
  · rw [TargetWriter.write_default, hd]
  · rw [TargetWriter.write_default, hd]
    show applyWrites (defaultTargetWrites t) s.files "branches/target/branch_name"
      = some t.branch_name
    rw [defaultTargetWrites, applyWrites_quad]
    simp [d12, d13, d14]
  · rw [TargetWriter.write_default, hd]
    show applyWrites (defaultTargetWrites t) s.files "branches/target/remote_name"
      = some t.remote_name
    rw [defaultTargetWrites, applyWrites_quad]
    simp [d23, d24]
  · rw [TargetWriter.write_default, hd]
    show applyWrites (defaultTargetWrites t) s.files "branches/target/remote_url"
      = some t.remote_url
    rw [defaultTargetWrites, applyWrites_quad]
    simp [d34]
  · rw [TargetWriter.write_default, hd]
    show applyWrites (defaultTargetWrites t) s.files "branches/target/sha"
      = some t.sha.toHex
    rw [defaultTargetWrites, applyWrites_quad]
    simp
  · intro p hp
    exact runGuarded_frame env s (defaultTargetWrites t) p (defaultWrites_ne hp t)
  · rw [TargetWriter.write, hsc]
  · rw [TargetWriter.write, hsc]
    show applyWrites (scopedTargetWrites id t) s.files
      ("branches/" ++ id ++ "/target/branch_name") = some t.branch_name
    rw [scopedTargetWrites, applyWrites_quad]
    simp [s12, s13, s14]
  · rw [TargetWriter.write, hsc]
    show applyWrites (scopedTargetWrites id t) s.files
      ("branches/" ++ id ++ "/target/remote_name") = some t.remote_name
    rw [scopedTargetWrites, applyWrites_quad]
    simp [s23, s24]
  · rw [TargetWriter.write, hsc]
    show applyWrites (scopedTargetWrites id t) s.files
      ("branches/" ++ id ++ "/target/remote_url") = some t.remote_url
    rw [scopedTargetWrites, applyWrites_quad]
    simp [s34]
  · rw [TargetWriter.write, hsc]
    show applyWrites (scopedTargetWrites id t) s.files
      ("branches/" ++ id ++ "/target/sha") = some t.sha.toHex
    rw [scopedTargetWrites, applyWrites_quad]
    simp
  · intro p hp
    exact runGuarded_frame env s (scopedTargetWrites id t) p (scopedWrites_ne hp t)

/-- Witness for C1: the spec's concrete scenario (target `main`/`origin`
with the test sha) against the all-ok environment and the empty store. -/
theorem C1_round_trip_witness :
    (Env.allOk.sessionOk = true ∧ emptyStore.locked = false
      ∧ sampleTarget.sha.bytes.length = 20
      ∧ sampleTarget.sha.toHex = "0123456789abcdef0123456789abcdef01234567")
    ∧ (TargetWriter.write_default Env.allOk emptyStore sampleTarget).2.1.files
        "branches/target/branch_name" = some "main"
    ∧ (TargetWriter.write Env.allOk emptyStore "branch_1" sampleTarget).2.1.files
        ("branches/" ++ "branch_1" ++ "/target/sha") = some sampleTarget.sha.toHex := by
  refine ⟨⟨rfl, rfl, rfl, by decide⟩, ?_, ?_⟩
  · exact (C1_round_trip Env.allOk emptyStore sampleTarget "branch_1" rfl rfl rfl rfl
      (by intro p _; rfl) (by intro p _; rfl) rfl).1.2.1
  · exact (C1_round_trip Env.allOk emptyStore sampleTarget "branch_1" rfl rfl rfl rfl
      (by intro p _; rfl) (by intro p _; rfl) rfl).2.1.2.2.2.2.1

/-- An environment in which exactly one path's write fails and every
other collaborator operation succeeds. -/
def failOn (bad : String) : Env :=
  { sessionOk := true, lockOk := true, writeOk := fun p => p != bad,
    unlockOk := true }

/-- C2: once the lock has been acquired it is released on every exit
path of `write_default`/`write` — for an arbitrary pattern of
field-write failures the final store is unlocked, and a subsequent
caller's lock acquisition does not fail. -/
theorem C2_lock_released (env env2 : Env) (s : Store) (t t2 : Target) (id id2 : String)
    (hs : env.sessionOk = true) (hl : env.lockOk = true) (hlk : s.locked = false)
    (hu : env.unlockOk = true)
    (hs2 : env2.sessionOk = true) (hl2 : env2.lockOk = true) :
    (TargetWriter.write_default env s t).2.1.locked = false
    ∧ (TargetWriter.write env s id t).2.1.locked = false
    ∧ (TargetWriter.write env2 (TargetWriter.write_default env s t).2.1 id2 t2).1
        ≠ .err .lockFailed
    ∧ (TargetWriter.write env2 (TargetWriter.write env s id t).2.1 id2 t2).1
        ≠ .err .lockFailed := by
  have h1 := runGuarded_locked_false env s (defaultTargetWrites t) hs hl hlk hu
  have h2 := runGuarded_locked_false env s (scopedTargetWrites id t) hs hl hlk hu
  exact ⟨h1, h2,
    runGuarded_not_lockFailed env2 _ (scopedTargetWrites id2 t2) hs2 hl2 h1,
    runGuarded_not_lockFailed env2 _ (scopedTargetWrites id2 t2) hs2 hl2 h2⟩

/-- Witness for C2: a call whose `remote_url` field write fails
mid-sequence still leaves the store unlocked, and a subsequent all-ok
call does not fail to acquire the lock. -/
theorem C2_lock_released_witness :
    ((failOn "branches/target/remote_url").sessionOk = true
      ∧ emptyStore.locked = false ∧ Env.allOk.lockOk = true)
    ∧ (TargetWriter.write_default (failOn "branches/target/remote_url")
        emptyStore sampleTarget).2.1.locked = false
    ∧ (TargetWriter.write Env.allOk
        (TargetWriter.write_default (failOn "branches/target/remote_url")
          emptyStore sampleTarget).2.1 "branch_1" updatedTarget).1
        ≠ .err .lockFailed := by
  refine ⟨⟨rfl, rfl, rfl⟩, ?_, ?_⟩
  · exact (C2_lock_released (failOn "branches/target/remote_url") Env.allOk
      emptyStore sampleTarget updatedTarget "branch_1" "branch_1"
      rfl rfl rfl rfl rfl rfl).1
  · exact (C2_lock_released (failOn "branches/target/remote_url") Env.allOk
      emptyStore sampleTarget updatedTarget "branch_1" "branch_1"
      rfl rfl rfl rfl rfl rfl).2.2.1

/-- C3: in both `write_default` and `write` the four field writes are
issued in the fixed order branch_name, remote_name, remote_url, sha;
the first failing write's error is returned, the writes after it are
not attempted (the trace stops at the failing path), and the fields
already written in the call keep their new values (no rollback). -/
theorem C3_order_shortcircuit_no_rollback (env : Env) (s : Store) (t : Target)
    (id : String)
    (hs : env.sessionOk = true) (hl : env.lockOk = true) (hlk : s.locked = false)
    (hu : env.unlockOk = true) :
    ((env.writeOk "branches/target/branch_name" = false →
        TargetWriter.write_default env s t
          = (.err (.writeFailed "branches/target/branch_name"
                "Failed to write default target branch name"),
              { s with sessionOpen := true }, ["branches/target/branch_name"]))
    ∧ (env.writeOk "branches/target/branch_name" = true →
        env.writeOk "branches/target/remote_name" = false →
        (TargetWriter.write_default env s t).1
            = .err (.writeFailed "branches/target/remote_name"
                "Failed to write default target remote name ")
          ∧ (TargetWriter.write_default env s t).2.2
            = ["branches/target/branch_name", "branches/target/remote_name"]
          ∧ (TargetWriter.write_default env s t).2.1.files
              "branches/target/branch_name" = some t.branch_name
          ∧ ∀ q, q ≠ "branches/target/branch_name" →
              (TargetWriter.write_default env s t).2.1.files q = s.files q)
    ∧ (env.writeOk "branches/target/branch_name" = true →
        env.writeOk "branches/target/remote_name" = true →
        env.writeOk "branches/target/remote_url" = false →
        (TargetWriter.write_default env s t).1
            = .err (.writeFailed "branches/target/remote_url"
                "Failed to write default target remote name ")
          ∧ (TargetWriter.write_default env s t).2.2
            = ["branches/target/branch_name", "branches/target/remote_name",
                "branches/target/remote_url"]
          ∧ (TargetWriter.write_default env s t).2.1.files
              "branches/target/branch_name" = some t.branch_name
          ∧ (TargetWriter.write_default env s t).2.1.files
              "branches/target/remote_name" = some t.remote_name
          ∧ ∀ q, q ≠ "branches/target/branch_name" →
              q ≠ "branches/target/remote_name" →
              (TargetWriter.write_default env s t).2.1.files q = s.files q)
    ∧ (env.writeOk "branches/target/branch_name" = true →
        env.writeOk "branches/target/remote_name" = true →
        env.writeOk "branches/target/remote_url" = true →
        env.writeOk "branches/target/sha" = false →
        (TargetWriter.write_default env s t).1
            = .err (.writeFailed "branches/target/sha"
                "Failed to write default target sha")
          ∧ (TargetWriter.write_default env s t).2.2
            = ["branches/target/branch_name", "branches/target/remote_name",
                "branches/target/remote_url", "branches/target/sha"]
          ∧ (TargetWriter.write_default env s t).2.1.files
              "branches/target/branch_name" = some t.branch_name
          ∧ (TargetWriter.write_default env s t).2.1.files
              "branches/target/remote_name" = some t.remote_name
          ∧ (TargetWriter.write_default env s t).2.1.files
              "branches/target/remote_url" = some t.remote_url
          ∧ ∀ q, q ≠ "branches/target/branch_name" →
              q ≠ "branches/target/remote_name" →
              q ≠ "branches/target/remote_url" →
              (TargetWriter.write_default env s t).2.1.files q = s.files q)
    ∧ ((∀ p ∈ defaultTargetPaths, env.writeOk p = true) →
        (TargetWriter.write_default env s t).1 = .ok
          ∧ (TargetWriter.write_default env s t).2.2
            = ["branches/target/branch_name", "branches/target/remote_name",
                "branches/target/remote_url", "branches/target/sha"]))
    ∧ ((env.writeOk ("branches/" ++ id ++ "/target/branch_name") = false →
        TargetWriter.write env s id t
          = (.err (.writeFailed ("branches/" ++ id ++ "/target/branch_name")
                "Failed to write branch target branch name"),
              { s with sessionOpen := true },
              ["branches/" ++ id ++ "/target/branch_name"]))
    ∧ (env.writeOk ("branches/" ++ id ++ "/target/branch_name") = true →
        env.writeOk ("branches/" ++ id ++ "/target/remote_name") = false →
        (TargetWriter.write env s id t).1
            = .err (.writeFailed ("branches/" ++ id ++ "/target/remote_name")
                "Failed to write branch target remote")
          ∧ (TargetWriter.write env s id t).2.2
            = ["branches/" ++ id ++ "/target/branch_name",
                "branches/" ++ id ++ "/target/remote_name"]
          ∧ (TargetWriter.write env s id t).2.1.files
              ("branches/" ++ id ++ "/target/branch_name") = some t.branch_name
          ∧ ∀ q, q ≠ "branches/" ++ id ++ "/target/branch_name" →
              (TargetWriter.write env s id t).2.1.files q = s.files q)
    ∧ (env.writeOk ("branches/" ++ id ++ "/target/branch_name") = true →
        env.writeOk ("branches/" ++ id ++ "/target/remote_name") = true →
        env.writeOk ("branches/" ++ id ++ "/target/remote_url") = false →
        (TargetWriter.write env s id t).1
            = .err (.writeFailed ("branches/" ++ id ++ "/target/remote_url")
                "Failed to write branch target remote")
          ∧ (TargetWriter.write env s id t).2.2
            = ["branches/" ++ id ++ "/target/branch_name",
                "branches/" ++ id ++ "/target/remote_name",
                "branches/" ++ id ++ "/target/remote_url"]
          ∧ (TargetWriter.write env s id t).2.1.files
              ("branches/" ++ id ++ "/target/branch_name") = some t.branch_name
          ∧ (TargetWriter.write env s id t).2.1.files
              ("branches/" ++ id ++ "/target/remote_name") = some t.remote_name
          ∧ ∀ q, q ≠ "branches/" ++ id ++ "/target/branch_name" →
              q ≠ "branches/" ++ id ++ "/target/remote_name" →
              (TargetWriter.write env s id t).2.1.files q = s.files q)
    ∧ (env.writeOk ("branches/" ++ id ++ "/target/branch_name") = true →
        env.writeOk ("branches/" ++ id ++ "/target/remote_name") = true →
        env.writeOk ("branches/" ++ id ++ "/target/remote_url") = true →
        env.writeOk ("branches/" ++ id ++ "/target/sha") = false →
        (TargetWriter.write env s id t).1
            = .err (.writeFailed ("branches/" ++ id ++ "/target/sha")
                "Failed to write branch target sha")
          ∧ (TargetWriter.write env s id t).2.2
            = ["branches/" ++ id ++ "/target/branch_name",
                "branches/" ++ id ++ "/target/remote_name",
                "branches/" ++ id ++ "/target/remote_url",
                "branches/" ++ id ++ "/target/sha"]
          ∧ (TargetWriter.write env s id t).2.1.files
              ("branches/" ++ id ++ "/target/branch_name") = some t.branch_name
          ∧ (TargetWriter.write env s id t).2.1.files
              ("branches/" ++ id ++ "/target/remote_name") = some t.remote_name
          ∧ (TargetWriter.write env s id t).2.1.files
              ("branches/" ++ id ++ "/target/remote_url") = some t.remote_url
          ∧ ∀ q, q ≠ "branches/" ++ id ++ "/target/branch_name" →
              q ≠ "branches/" ++ id ++ "/target/remote_name" →
              q ≠ "branches/" ++ id ++ "/target/remote_url" →
              (TargetWriter.write env s id t).2.1.files q = s.files q)
    ∧ ((∀ p ∈ scopedTargetPaths id, env.writeOk p = true) →
        (TargetWriter.write env s id t).1 = .ok
          ∧ (TargetWriter.write env s id t).2.2
            = ["branches/" ++ id ++ "/target/branch_name",
                "branches/" ++ id ++ "/target/remote_name",
                "branches/" ++ id ++ "/target/remote_url",
                "branches/" ++ id ++ "/target/sha"])) := by
  obtain ⟨d12, d13, d23⟩ :
      ("branches/target/branch_name" : String) ≠ "branches/target/remote_name"
    ∧ ("branches/target/branch_name" : String) ≠ "branches/target/remote_url"
    ∧ ("branches/target/remote_name" : String) ≠ "branches/target/remote_url" := by
    refine ⟨?_, ?_, ?_⟩ <;> decide
  have s12 := scoped_ne_of_lit_ne id
    (show ("/target/branch_name" : String) ≠ "/target/remote_name" by decide)
  have s13 := scoped_ne_of_lit_ne id
    (show ("/target/branch_name" : String) ≠ "/target/remote_url" by decide)
  have s23 := scoped_ne_of_lit_ne id
    (show ("/target/remote_name" : String) ≠ "/target/remote_url" by decide)
  refine ⟨⟨?_, ?_, ?_, ?_, ?_⟩, ?_, ?_, ?_, ?_, ?_⟩
  · intro h1
    simp [TargetWriter.write_default, runGuarded, defaultTargetWrites, runFieldWrites,
      hs, hl, hlk, hu, h1, setFile, upd]
  · intro h1 h2
    refine ⟨?_, ?_, ?_, ?_⟩
    · simp [TargetWriter.write_default, runGuarded, defaultTargetWrites, runFieldWrites,
        hs, hl, hlk, hu, h1, h2, setFile, upd]
    · simp [TargetWriter.write_default, runGuarded, defaultTargetWrites, runFieldWrites,
        hs, hl, hlk, hu, h1, h2, setFile, upd]
    · simp [TargetWriter.write_default, runGuarded, defaultTargetWrites, runFieldWrites,
        hs, hl, hlk, hu, h1, h2, setFile, upd]
    · intro q hq
      simp [TargetWriter.write_default, runGuarded, defaultTargetWrites, runFieldWrites,
        hs, hl, hlk, hu, h1, h2, setFile, upd, hq]
  · intro h1 h2 h3
    refine ⟨?_, ?_, ?_, ?_, ?_⟩
    · simp [TargetWriter.write_default, runGuarded, defaultTargetWrites, runFieldWrites,
        hs, hl, hlk, hu, h1, h2, h3, setFile, upd]
    · simp [TargetWriter.write_default, runGuarded, defaultTargetWrites, runFieldWrites,
        hs, hl, hlk, hu, h1, h2, h3, setFile, upd]
    · simp [TargetWriter.write_default, runGuarded, defaultTargetWrites, runFieldWrites,
        hs, hl, hlk, hu, h1, h2, h3, setFile, upd, d12]
    · simp [TargetWriter.write_default, runGuarded, defaultTargetWrites, runFieldWrites,
        hs, hl, hlk, hu, h1, h2, h3, setFile, upd]
    · intro q hq1 hq2
      simp [TargetWriter.write_default, runGuarded, defaultTargetWrites, runFieldWrites,
        hs, hl, hlk, hu, h1, h2, h3, setFile, upd, hq1, hq2]
  · intro h1 h2 h3 h4
    refine ⟨?_, ?_, ?_, ?_, ?_, ?_⟩
    · simp [TargetWriter.write_default, runGuarded, defaultTargetWrites, runFieldWrites,
        hs, hl, hlk, hu, h1, h2, h3, h4, setFile, upd]
    · simp [TargetWriter.write_default, runGuarded, defaultTargetWrites, runFieldWrites,
        hs, hl, hlk, hu, h1, h2, h3, h4, setFile, upd]
    · simp [TargetWriter.write_default, runGuarded, defaultTargetWrites, runFieldWrites,
        hs, hl, hlk, hu, h1, h2, h3, h4, setFile, upd, d12, d13]
    · simp [TargetWriter.write_default, runGuarded, defaultTargetWrites, runFieldWrites,
        hs, hl, hlk, hu, h1, h2, h3, h4, setFile, upd, d23]
    · simp [TargetWriter.write_default, runGuarded, defaultTargetWrites, runFieldWrites,
        hs, hl, hlk, hu, h1, h2, h3, h4, setFile, upd]
    · intro q hq1 hq2 hq3
      simp [TargetWriter.write_default, runGuarded, defaultTargetWrites, runFieldWrites,
        hs, hl, hlk, hu, h1, h2, h3, h4, setFile, upd, hq1, hq2, hq3]
  · intro h
    have hok := runGuarded_allOk env s (defaultTargetWrites t) hs hl hlk hu
      (defaultWrites_writeOk h t)
    rw [TargetWriter.write_default, hok]
    exact ⟨rfl, by simp [defaultTargetWrites]⟩
  · intro h1
    simp [TargetWriter.write, runGuarded, scopedTargetWrites, runFieldWrites,
      hs, hl, hlk, hu, h1, setFile, upd]
  · intro h1 h2
    refine ⟨?_, ?_, ?_, ?_⟩
    · simp [TargetWriter.write, runGuarded, scopedTargetWrites, runFieldWrites,
        hs, hl, hlk, hu, h1, h2, setFile, upd]
    · simp [TargetWriter.write, runGuarded, scopedTargetWrites, runFieldWrites,
        hs, hl, hlk, hu, h1, h2, setFile, upd]
    · simp [TargetWriter.write, runGuarded, scopedTargetWrites, runFieldWrites,
        hs, hl, hlk, hu, h1, h2, setFile, upd]
    · intro q hq
      simp [TargetWriter.write, runGuarded, scopedTargetWrites, runFieldWrites,
        hs, hl, hlk, hu, h1, h2, setFile, upd, hq]
  · intro h1 h2 h3
    refine ⟨?_, ?_, ?_, ?_, ?_⟩
    · simp [TargetWriter.write, runGuarded, scopedTargetWrites, runFieldWrites,
        hs, hl, hlk, hu, h1, h2, h3, setFile, upd]
    · simp [TargetWriter.write, runGuarded, scopedTargetWrites, runFieldWrites,
        hs, hl, hlk, hu, h1, h2, h3, setFile, upd]
    · simp [TargetWriter.write, runGuarded, scopedTargetWrites, runFieldWrites,
        hs, hl, hlk, hu, h1, h2, h3, setFile, upd, s12]
    · simp [TargetWriter.write, runGuarded, scopedTargetWrites, runFieldWrites,
        hs, hl, hlk, hu, h1, h2, h3, setFile, upd]
    · intro q hq1 hq2
      simp [TargetWriter.write, runGuarded, scopedTargetWrites, runFieldWrites,
        hs, hl, hlk, hu, h1, h2, h3, setFile, upd, hq1, hq2]
  · intro h1 h2 h3 h4
    refine ⟨?_, ?_, ?_, ?_, ?_, ?_⟩
    · simp [TargetWriter.write, runGuarded, scopedTargetWrites, runFieldWrites,
        hs, hl, hlk, hu, h1, h2, h3, h4, setFile, upd]
    · simp [TargetWriter.write, runGuarded, scopedTargetWrites, runFieldWrites,
        hs, hl, hlk, hu, h1, h2, h3, h4, setFile, upd]
    · simp [TargetWriter.write, runGuarded, scopedTargetWrites, runFieldWrites,
        hs, hl, hlk, hu, h1, h2, h3, h4, setFile, upd, s12, s13]
    · simp [TargetWriter.write, runGuarded, scopedTargetWrites, runFieldWrites,
        hs, hl, hlk, hu, h1, h2, h3, h4, setFile, upd, s23]
    · simp [TargetWriter.write, runGuarded, scopedTargetWrites, runFieldWrites,
        hs, hl, hlk, hu, h1, h2, h3, h4, setFile, upd]
    · intro q hq1 hq2 hq3
      simp [TargetWriter.write, runGuarded, scopedTargetWrites, runFieldWrites,
        hs, hl, hlk, hu, h1, h2, h3, h4, setFile, upd, hq1, hq2, hq3]
  · intro h
    have hok := runGuarded_allOk env s (scopedTargetWrites id t) hs hl hlk hu
      (scopedWrites_writeOk h t)
    rw [TargetWriter.write, hok]
    exact ⟨rfl, by simp [scopedTargetWrites]⟩

/-- Witness for C3: with a `remote_url` write failure, `write_default`
returns that failure, attempts only the first three writes in order,
and keeps the two fields already written. -/
theorem C3_order_shortcircuit_no_rollback_witness :
    ((failOn "branches/target/remote_url").sessionOk = true
      ∧ emptyStore.locked = false
      ∧ (failOn "branches/target/remote_url").writeOk
          "branches/target/branch_name" = true
      ∧ (failOn "branches/target/remote_url").writeOk
          "branches/target/remote_url" = false)
    ∧ ((TargetWriter.write_default (failOn "branches/target/remote_url")
          emptyStore sampleTarget).1
        = .err (.writeFailed "branches/target/remote_url"
            "Failed to write default target remote name ")
      ∧ (TargetWriter.write_default (failOn "branches/target/remote_url")
          emptyStore sampleTarget).2.2
        = ["branches/target/branch_name", "branches/target/remote_name",
            "branches/target/remote_url"]
      ∧ (TargetWriter.write_default (failOn "branches/target/remote_url")
          emptyStore sampleTarget).2.1.files "branches/target/branch_name"
        = some sampleTarget.branch_name
      ∧ (TargetWriter.write_default (failOn "branches/target/remote_url")
          emptyStore sampleTarget).2.1.files "branches/target/remote_name"
        = some sampleTarget.remote_name
      ∧ ∀ q, q ≠ "branches/target/branch_name" →
          q ≠ "branches/target/remote_name" →
          (TargetWriter.write_default (failOn "branches/target/remote_url")
            emptyStore sampleTarget).2.1.files q = emptyStore.files q) := by
  refine ⟨⟨rfl, rfl, by decide, by decide⟩, ?_⟩
  exact (C3_order_shortcircuit_no_rollback (failOn "branches/target/remote_url")
    emptyStore sampleTarget "branch_1" rfl rfl rfl rfl).1.2.2.1
    (by decide) (by decide) (by decide)

/-- An environment whose session cannot be ensured. -/
def noSessionEnv : Env :=
  { sessionOk := false, lockOk := true, writeOk := fun _ => true, unlockOk := true }

/-- An environment whose lock primitive fails to acquire. -/
def noLockEnv : Env :=
  { sessionOk := true, lockOk := false, writeOk := fun _ => true, unlockOk := true }

/-- C4: if ensuring the session fails, the call returns the session
error with the store completely untouched (in particular the lock flag
is unchanged, so a session failure never leaves the lock held); if the
session succeeds but the lock cannot be acquired, the call returns the
lock error with no field write attempted and the files unchanged. -/
theorem C4_no_partial_effect (envA envB : Env) (s : Store) (t : Target) (id : String)
    (hA : envA.sessionOk = false)
    (hB : envB.sessionOk = true) (hBl : envB.lockOk = false ∨ s.locked = true) :
    TargetWriter.write_default envA s t
      = (.err (.sessionFailed "Failed to get or create current session"), s, [])
    ∧ TargetWriter.write envA s id t
      = (.err (.sessionFailed "Failed to get or create current session"), s, [])
    ∧ TargetWriter.write_default envB s t
      = (.err .lockFailed, { s with sessionOpen := true }, [])
    ∧ TargetWriter.write envB s id t
      = (.err .lockFailed, { s with sessionOpen := true }, []) := by
  refine ⟨?_, ?_, ?_, ?_⟩
  · simp [TargetWriter.write_default, runGuarded, hA]
  · simp [TargetWriter.write, runGuarded, hA]
  · rcases hBl with h | h <;> simp [TargetWriter.write_default, runGuarded, hB, h]
  · rcases hBl with h | h <;> simp [TargetWriter.write, runGuarded, hB, h]

/-- Witness for C4 at concrete failing environments and the empty store. -/
theorem C4_no_partial_effect_witness :
    (noSessionEnv.sessionOk = false ∧ noLockEnv.sessionOk = true
      ∧ (noLockEnv.lockOk = false ∨ emptyStore.locked = true))
    ∧ TargetWriter.write_default noSessionEnv emptyStore sampleTarget
      = (.err (.sessionFailed "Failed to get or create current session"),
          emptyStore, [])
    ∧ TargetWriter.write noLockEnv emptyStore "branch_1" sampleTarget
      = (.err .lockFailed, { emptyStore with sessionOpen := true }, []) := by
  refine ⟨⟨rfl, rfl, Or.inl rfl⟩, ?_, ?_⟩
  · exact (C4_no_partial_effect noSessionEnv noLockEnv emptyStore sampleTarget
      "branch_1" rfl rfl (Or.inl rfl)).1
  · exact (C4_no_partial_effect noSessionEnv noLockEnv emptyStore sampleTarget
      "branch_1" rfl rfl (Or.inl rfl)).2.2.2

theorem lastCompRev_scoped_bn (id : String) :
    lastCompRev (("branches/" ++ id ++ "/target/branch_name").data)
      = "eman_hcnarb".data := by
  simp only [String.data_append]
  exact lastCompRev_append _
    (show ("/target/branch_name".data).reverse
      = "eman_hcnarb".data ++ '/' :: "tegrat/".data from by decide) (by decide)

theorem lastCompRev_scoped_rn (id : String) :
    lastCompRev (("branches/" ++ id ++ "/target/remote_name").data)
      = "eman_etomer".data := by
  simp only [String.data_append]
  exact lastCompRev_append _
    (show ("/target/remote_name".data).reverse
      = "eman_etomer".data ++ '/' :: "tegrat/".data from by decide) (by decide)

theorem lastCompRev_scoped_ru (id : String) :
    lastCompRev (("branches/" ++ id ++ "/target/remote_url").data)
      = "lru_etomer".data := by
  simp only [String.data_append]
  exact lastCompRev_append _
    (show ("/target/remote_url".data).reverse
      = "lru_etomer".data ++ '/' :: "tegrat/".data from by decide) (by decide)

theorem lastCompRev_scoped_sha (id : String) :
    lastCompRev (("branches/" ++ id ++ "/target/sha").data)
      = "ahs".data := by
  simp only [String.data_append]
  exact lastCompRev_append _
    (show ("/target/sha".data).reverse
      = "ahs".data ++ '/' :: "tegrat/".data from by decide) (by decide)

theorem scoped_paths_ne {id1 id2 a b : String} {fa fb : List Char}
    (hA : lastCompRev (("branches/" ++ id1 ++ a).data) = fa)
    (hB : lastCompRev (("branches/" ++ id2 ++ b).data) = fb)
    (hne : fa ≠ fb) : "branches/" ++ id1 ++ a ≠ "branches/" ++ id2 ++ b := by
  intro h
  apply hne
  rw [← hA, ← hB, h]

/-- C5: the four paths of a scoped target never meet the four paths of
the default target (for any identifier, including slash-containing or
empty ones), and the path sets of two distinct identifiers never meet;
the path sets are exactly the ones the write sequences address. -/
theorem C5_scope_isolation (id id1 id2 : String) (t u : Target) (hne : id1 ≠ id2) :
    ((scopedTargetWrites id t).map (fun e => e.1) = scopedTargetPaths id)
    ∧ ((defaultTargetWrites u).map (fun e => e.1) = defaultTargetPaths)
    ∧ (∀ p ∈ scopedTargetPaths id, p ∉ defaultTargetPaths)
    ∧ (∀ p ∈ scopedTargetPaths id1, p ∉ scopedTargetPaths id2) := by
  refine ⟨by simp [scopedTargetWrites, scopedTargetPaths],
    by simp [defaultTargetWrites, defaultTargetPaths], ?_, ?_⟩
  · intro p hp hq
    simp only [scopedTargetPaths, List.mem_cons, List.not_mem_nil, or_false] at hp
    simp only [defaultTargetPaths, List.mem_cons, List.not_mem_nil, or_false] at hq
    rcases hp with rfl | rfl | rfl | rfl <;> rcases hq with h | h | h | h <;>
      exact scoped_ne_default (by decide) (by decide) h
  · intro p hp hq
    simp only [scopedTargetPaths, List.mem_cons, List.not_mem_nil, or_false] at hp
    rcases hp with rfl | rfl | rfl | rfl <;>
      simp only [scopedTargetPaths, List.mem_cons, List.not_mem_nil, or_false] at hq <;>
      rcases hq with h | h | h | h <;>
      first
      | exact hne (scoped_eq_ids h)
      | exact scoped_paths_ne (lastCompRev_scoped_bn id1) (lastCompRev_scoped_rn id2)
          (by decide) h
      | exact scoped_paths_ne (lastCompRev_scoped_bn id1) (lastCompRev_scoped_ru id2)
          (by decide) h
      | exact scoped_paths_ne (lastCompRev_scoped_bn id1) (lastCompRev_scoped_sha id2)
          (by decide) h
      | exact scoped_paths_ne (lastCompRev_scoped_rn id1) (lastCompRev_scoped_bn id2)
          (by decide) h
      | exact scoped_paths_ne (lastCompRev_scoped_rn id1) (lastCompRev_scoped_ru id2)
          (by decide) h
      | exact scoped_paths_ne (lastCompRev_scoped_rn id1) (lastCompRev_scoped_sha id2)
          (by decide) h
      | exact scoped_paths_ne (lastCompRev_scoped_ru id1) (lastCompRev_scoped_bn id2)
          (by decide) h
      | exact scoped_paths_ne (lastCompRev_scoped_ru id1) (lastCompRev_scoped_rn id2)
          (by decide) h
      | exact scoped_paths_ne (lastCompRev_scoped_ru id1) (lastCompRev_scoped_sha id2)
          (by decide) h
      | exact scoped_paths_ne (lastCompRev_scoped_sha id1) (lastCompRev_scoped_bn id2)
          (by decide) h
      | exact scoped_paths_ne (lastCompRev_scoped_sha id1) (lastCompRev_scoped_rn id2)
          (by decide) h
      | exact scoped_paths_ne (lastCompRev_scoped_sha id1) (lastCompRev_scoped_ru id2)
          (by decide) h

/-- Witness for C5 at the identifiers `branch_1` and `branch_2`. -/
theorem C5_scope_isolation_witness :
    ("branch_1" : String) ≠ "branch_2"
    ∧ (∀ p ∈ scopedTargetPaths "branch_1", p ∉ defaultTargetPaths)
    ∧ (∀ p ∈ scopedTargetPaths "branch_1", p ∉ scopedTargetPaths "branch_2") := by
  refine ⟨by decide, ?_, ?_⟩
  · exact (C5_scope_isolation "branch_1" "branch_1" "branch_2" sampleTarget
      sampleTarget (by decide)).2.2.1
  · exact (C5_scope_isolation "branch_1" "branch_1" "branch_2" sampleTarget
      sampleTarget (by decide)).2.2.2

/-- C6 evidence: a failing `remote_url` field write is reported with the
context string of the `remote_name` field — `write_default` attaches
"Failed to write default target remote name " to both the remote_name
and the remote_url failures, and `write` attaches "Failed to write
branch target remote" to both, so the context does not name the failing
field distinctly. -/
theorem C6_context_not_distinct :
    (TargetWriter.write_default (failOn "branches/target/remote_url")
        emptyStore sampleTarget).1
      = .err (.writeFailed "branches/target/remote_url"
          "Failed to write default target remote name ")
    ∧ (TargetWriter.write_default (failOn "branches/target/remote_name")
        emptyStore sampleTarget).1
      = .err (.writeFailed "branches/target/remote_name"
          "Failed to write default target remote name ")
    ∧ (TargetWriter.write (failOn "branches/branch_1/target/remote_url")
        emptyStore "branch_1" sampleTarget).1
      = .err (.writeFailed "branches/branch_1/target/remote_url"
          "Failed to write branch target remote")
    ∧ (TargetWriter.write (failOn "branches/branch_1/target/remote_name")
        emptyStore "branch_1" sampleTarget).1
      = .err (.writeFailed "branches/branch_1/target/remote_name"
          "Failed to write branch target remote") := by
  refine ⟨?_, ?_, ?_, ?_⟩ <;> rfl

/-- An environment in which everything succeeds except releasing the
lock. -/
def unlockFailEnv : Env :=
  { sessionOk := true, lockOk := true, writeOk := fun _ => true, unlockOk := false }

/-- C7 counterexample: when the lock release on exit fails, the call
does not return a recoverable error value — it panics (the source's
`unlock().expect("Failed to unlock repository")`), aborting execution. -/
theorem C7_counterexample :
    (TargetWriter.write_default unlockFailEnv emptyStore sampleTarget).1
      = .panicked "Failed to unlock repository"
    ∧ ∀ e : WriterError,
        (TargetWriter.write_default unlockFailEnv emptyStore sampleTarget).1
          ≠ .err e := by
  refine ⟨rfl, ?_⟩
  intro e h
  rw [show (TargetWriter.write_default unlockFailEnv emptyStore sampleTarget).1
      = Outcome.panicked "Failed to unlock repository" from rfl] at h
  exact Outcome.noConfusion h

theorem runFieldWrites_not_panicked (env : Env) (s : Store) (fs : List FieldWrite) :
    ∀ msg, (runFieldWrites env s fs).1 ≠ .panicked msg := by
  induction fs generalizing s with
  | nil => simp [runFieldWrites]
  | cons e rest ih =>
    obtain ⟨p, v, c⟩ := e
    intro msg
    by_cases hw : env.writeOk p = true
    · have := ih (setFile s p v) msg
      simp only [runFieldWrites, hw, if_true]
      rcases hr : runFieldWrites env (setFile s p v) rest with ⟨out, s2, tr⟩
      rw [hr] at this
      simpa using this
    · simp [runFieldWrites, Bool.of_not_eq_true hw]

theorem runGuarded_not_panicked (env : Env) (s : Store) (fs : List FieldWrite)
    (hu : env.unlockOk = true) :
    ∀ msg, (runGuarded env s fs).1 ≠ .panicked msg := by
  intro msg
  have hnp := runFieldWrites_not_panicked env ⟨s.files, true, true⟩ fs msg
  unfold runGuarded
  by_cases hs : env.sessionOk = true
  · by_cases hlo : env.lockOk = true
    · by_cases hlk : s.locked = true
      · simp [hs, hlo, hlk]
      · have hlk2 : s.locked = false := by revert hlk; cases s.locked <;> simp
        simp [hs, hlo, hlk2, hu]
        simpa using hnp
    · simp [hs, hlo]
  · simp [hs]

/-- C7 (amended): every session, lock-acquisition or field-write failure
inside `write_default`/`write` is returned as a recoverable error value
rather than aborting execution — provided the lock release on exit
succeeds; a lock-release failure itself aborts via panic instead of
being returned (see the counterexample). -/
theorem C7_failures_recoverable (env : Env) (s : Store) (t : Target) (id : String)
    (hu : env.unlockOk = true) :
    (∀ msg, (TargetWriter.write_default env s t).1 ≠ .panicked msg)
    ∧ (∀ msg, (TargetWriter.write env s id t).1 ≠ .panicked msg) :=
  ⟨runGuarded_not_panicked env s (defaultTargetWrites t) hu,
    runGuarded_not_panicked env s (scopedTargetWrites id t) hu⟩

/-- Witness for C7 (amended): a call whose `remote_url` write fails and
whose unlock succeeds does not panic. -/
theorem C7_failures_recoverable_witness :
    ((failOn "branches/target/remote_url").unlockOk = true)
    ∧ ∀ msg, (TargetWriter.write_default (failOn "branches/target/remote_url")
        emptyStore sampleTarget).1 ≠ .panicked msg :=
  ⟨rfl, (C7_failures_recoverable (failOn "branches/target/remote_url")
    emptyStore sampleTarget "branch_1" rfl).1⟩

theorem runGuarded_twice (s : Store) (fs1 fs2 : List FieldWrite)
    (hlk : s.locked = false) :
    runGuarded Env.allOk (runGuarded Env.allOk s fs1).2.1 fs2
      = (.ok,
          { files := applyWrites fs2 (applyWrites fs1 s.files),
            locked := false, sessionOpen := true },
          fs2.map (fun e => e.1)) := by
  rw [runGuarded_allOk Env.allOk s fs1 rfl rfl hlk rfl (fun e _ => rfl)]
  exact runGuarded_allOk Env.allOk _ fs2 rfl rfl rfl rfl (fun e _ => rfl)

/-- C8: writing the same Target twice in succession (default or scoped)
gives exactly the same result and store as writing it once, and writing
`t1` then `t2` to the same scope leaves the same store as writing `t2`
alone — all four fields reflect `t2`, with no residue of `t1`. -/
theorem C8_idempotent_and_overwrite (s : Store) (t t1 t2 : Target) (id : String)
    (hlk : s.locked = false) :
    (TargetWriter.write_default Env.allOk
        (TargetWriter.write_default Env.allOk s t).2.1 t
      = TargetWriter.write_default Env.allOk s t)
    ∧ (TargetWriter.write Env.allOk
        (TargetWriter.write Env.allOk s id t).2.1 id t
      = TargetWriter.write Env.allOk s id t)
    ∧ ((TargetWriter.write_default Env.allOk
        (TargetWriter.write_default Env.allOk s t1).2.1 t2).2.1
      = (TargetWriter.write_default Env.allOk s t2).2.1)
    ∧ ((TargetWriter.write Env.allOk
        (TargetWriter.write Env.allOk s id t1).2.1 id t2).2.1
      = (TargetWriter.write Env.allOk s id t2).2.1) := by
  have hover_d : ∀ (u v : Target) (f : String → Option String),
      applyWrites (defaultTargetWrites v) (applyWrites (defaultTargetWrites u) f)
        = applyWrites (defaultTargetWrites v) f := by
    intro u v f
    funext q
    simp only [defaultTargetWrites, applyWrites_quad]
    split_ifs <;> rfl
  have hover_s : ∀ (u v : Target) (f : String → Option String),
      applyWrites (scopedTargetWrites id v) (applyWrites (scopedTargetWrites id u) f)
        = applyWrites (scopedTargetWrites id v) f := by
    intro u v f
    funext q
    simp only [scopedTargetWrites, applyWrites_quad]
    split_ifs <;> rfl
  refine ⟨?_, ?_, ?_, ?_⟩
  · simp only [TargetWriter.write_default]
    rw [runGuarded_twice s _ _ hlk, hover_d t t,
      runGuarded_allOk Env.allOk s (defaultTargetWrites t) rfl rfl hlk rfl
        (fun e _ => rfl)]
  · simp only [TargetWriter.write]
    rw [runGuarded_twice s _ _ hlk, hover_s t t,
      runGuarded_allOk Env.allOk s (scopedTargetWrites id t) rfl rfl hlk rfl
        (fun e _ => rfl)]
  · simp only [TargetWriter.write_default]
    rw [runGuarded_twice s _ _ hlk, hover_d t1 t2,
      runGuarded_allOk Env.allOk s (defaultTargetWrites t2) rfl rfl hlk rfl
        (fun e _ => rfl)]
  · simp only [TargetWriter.write]
    rw [runGuarded_twice s _ _ hlk, hover_s t1 t2,
      runGuarded_allOk Env.allOk s (scopedTargetWrites id t2) rfl rfl hlk rfl
        (fun e _ => rfl)]

/-- Witness for C8: rewriting the test target and then overwriting it
with the updated target, at the empty store and scope `branch_1`. -/
theorem C8_idempotent_and_overwrite_witness :
    emptyStore.locked = false
    ∧ (TargetWriter.write Env.allOk
        (TargetWriter.write Env.allOk emptyStore "branch_1" sampleTarget).2.1
        "branch_1" sampleTarget
      = TargetWriter.write Env.allOk emptyStore "branch_1" sampleTarget)
    ∧ ((TargetWriter.write Env.allOk
        (TargetWriter.write Env.allOk emptyStore "branch_1" sampleTarget).2.1
        "branch_1" updatedTarget).2.1
      = (TargetWriter.write Env.allOk emptyStore "branch_1" updatedTarget).2.1) := by
  refine ⟨rfl, ?_, ?_⟩
  · exact (C8_idempotent_and_overwrite emptyStore sampleTarget sampleTarget
      updatedTarget "branch_1" rfl).2.1
  · exact (C8_idempotent_and_overwrite emptyStore sampleTarget sampleTarget
      updatedTarget "branch_1" rfl).2.2.2

/-- C9: `write id t` changes no path outside the four
`branches/{id}/target/*` paths — in particular every sibling
`branches/{id}/meta/*` file is untouched — and overwriting a scoped
target with a value that agrees on the first three fields (e.g. differs
only in `sha`) leaves the stored branch_name, remote_name and
remote_url bytes exactly as the first write left them. -/
theorem C9_frame (env : Env) (s : Store) (id : String) (t t2 : Target)
    (p leaf : String) (hp : p ∉ scopedTargetPaths id)
    (hb : t.branch_name = t2.branch_name) (hr : t.remote_name = t2.remote_name)
    (hu2 : t.remote_url = t2.remote_url) (hlk : s.locked = false) :
    ((TargetWriter.write env s id t).2.1.files p = s.files p)
    ∧ ((TargetWriter.write env s id t).2.1.files
        ("branches/" ++ id ++ "/meta/" ++ leaf)
      = s.files ("branches/" ++ id ++ "/meta/" ++ leaf))
    ∧ ((TargetWriter.write Env.allOk
          (TargetWriter.write Env.allOk s id t).2.1 id t2).2.1.files
          ("branches/" ++ id ++ "/target/branch_name")
      = (TargetWriter.write Env.allOk s id t).2.1.files
          ("branches/" ++ id ++ "/target/branch_name"))
    ∧ ((TargetWriter.write Env.allOk
          (TargetWriter.write Env.allOk s id t).2.1 id t2).2.1.files
          ("branches/" ++ id ++ "/target/remote_name")
      = (TargetWriter.write Env.allOk s id t).2.1.files
          ("branches/" ++ id ++ "/target/remote_name"))
    ∧ ((TargetWriter.write Env.allOk
          (TargetWriter.write Env.allOk s id t).2.1 id t2).2.1.files
          ("branches/" ++ id ++ "/target/remote_url")
      = (TargetWriter.write Env.allOk s id t).2.1.files
          ("branches/" ++ id ++ "/target/remote_url")) := by
  have s12 := scoped_ne_of_lit_ne id
    (show ("/target/branch_name" : String) ≠ "/target/remote_name" by decide)
  have s13 := scoped_ne_of_lit_ne id
    (show ("/target/branch_name" : String) ≠ "/target/remote_url" by decide)
  have s14 := scoped_ne_of_lit_ne id
    (show ("/target/branch_name" : String) ≠ "/target/sha" by decide)
  have s23 := scoped_ne_of_lit_ne id
    (show ("/target/remote_name" : String) ≠ "/target/remote_url" by decide)
  have s24 := scoped_ne_of_lit_ne id
    (show ("/target/remote_name" : String) ≠ "/target/sha" by decide)
  have s34 := scoped_ne_of_lit_ne id
    (show ("/target/remote_url" : String) ≠ "/target/sha" by decide)
  have hmeta : ∀ e ∈ scopedTargetWrites id t,
      e.1 ≠ "branches/" ++ id ++ "/meta/" ++ leaf := by
    intro e he
    simp only [scopedTargetWrites, List.mem_cons, List.not_mem_nil, or_false] at he
    rcases he with rfl | rfl | rfl | rfl <;>
      exact fun h => meta_ne_target (by decide) h.symm
  refine ⟨?_, ?_, ?_, ?_, ?_⟩
  · exact runGuarded_frame env s (scopedTargetWrites id t) p (scopedWrites_ne hp t)
  · exact runGuarded_frame env s (scopedTargetWrites id t) _ hmeta
  · simp only [TargetWriter.write]
    rw [runGuarded_twice s _ _ hlk,
      runGuarded_allOk Env.allOk s (scopedTargetWrites id t) rfl rfl hlk rfl
        (fun e _ => rfl)]
    show applyWrites (scopedTargetWrites id t2) (applyWrites (scopedTargetWrites id t)
      s.files) ("branches/" ++ id ++ "/target/branch_name")
      = applyWrites (scopedTargetWrites id t) s.files
        ("branches/" ++ id ++ "/target/branch_name")
    simp only [scopedTargetWrites, applyWrites_quad]
    simp [s12, s13, s14, hb]
  · simp only [TargetWriter.write]
    rw [runGuarded_twice s _ _ hlk,
      runGuarded_allOk Env.allOk s (scopedTargetWrites id t) rfl rfl hlk rfl
        (fun e _ => rfl)]
    show applyWrites (scopedTargetWrites id t2) (applyWrites (scopedTargetWrites id t)
      s.files) ("branches/" ++ id ++ "/target/remote_name")
      = applyWrites (scopedTargetWrites id t) s.files
        ("branches/" ++ id ++ "/target/remote_name")
    simp only [scopedTargetWrites, applyWrites_quad]
    simp [s23, s24, hr]
  · simp only [TargetWriter.write]
    rw [runGuarded_twice s _ _ hlk,
      runGuarded_allOk Env.allOk s (scopedTargetWrites id t) rfl rfl hlk rfl
        (fun e _ => rfl)]
    show applyWrites (scopedTargetWrites id t2) (applyWrites (scopedTargetWrites id t)
      s.files) ("branches/" ++ id ++ "/target/remote_url")
      = applyWrites (scopedTargetWrites id t) s.files
        ("branches/" ++ id ++ "/target/remote_url")
    simp only [scopedTargetWrites, applyWrites_quad]
    simp [s34, hu2]

/-- The spec's sha-only overwrite of the test target. -/
def shaOnlyTarget : Target := { sampleTarget with sha := oid2 }

/-- Witness for C9: the spec's scenario — overwrite scope `branch_1`
with a target differing only in `sha`; the `meta/name` sibling and the
three other field paths keep their previous contents. -/
theorem C9_frame_witness :
    (("branches/branch_1/meta/name" : String) ∉ scopedTargetPaths "branch_1"
      ∧ sampleTarget.branch_name = shaOnlyTarget.branch_name
      ∧ emptyStore.locked = false)
    ∧ ((TargetWriter.write Env.allOk emptyStore "branch_1" sampleTarget).2.1.files
        "branches/branch_1/meta/name" = emptyStore.files "branches/branch_1/meta/name")
    ∧ ((TargetWriter.write Env.allOk
          (TargetWriter.write Env.allOk emptyStore "branch_1" sampleTarget).2.1
          "branch_1" shaOnlyTarget).2.1.files
          ("branches/" ++ "branch_1" ++ "/target/branch_name")
      = (TargetWriter.write Env.allOk emptyStore "branch_1" sampleTarget).2.1.files
          ("branches/" ++ "branch_1" ++ "/target/branch_name")) := by
  refine ⟨⟨by decide, rfl, rfl⟩, ?_, ?_⟩
  · exact (C9_frame Env.allOk emptyStore "branch_1" sampleTarget shaOnlyTarget
      "branches/branch_1/meta/name" "name" (by decide) rfl rfl rfl rfl).1
  · exact (C9_frame Env.allOk emptyStore "branch_1" sampleTarget shaOnlyTarget
      "branches/branch_1/meta/name" "name" (by decide) rfl rfl rfl rfl).2.2.1

/-- C10: the `behind` field is never persisted — two Targets agreeing on
the four persisted fields but differing in `behind` produce identical
write sequences and identical call results (outcome, store and trace)
in both scopes, for every environment and store. -/
theorem C10_behind_not_persisted (t1 t2 : Target) (env : Env) (s : Store)
    (id : String)
    (h1 : t1.branch_name = t2.branch_name) (h2 : t1.remote_name = t2.remote_name)
    (h3 : t1.remote_url = t2.remote_url) (h4 : t1.sha = t2.sha) :
    defaultTargetWrites t1 = defaultTargetWrites t2
    ∧ scopedTargetWrites id t1 = scopedTargetWrites id t2
    ∧ TargetWriter.write_default env s t1 = TargetWriter.write_default env s t2
    ∧ TargetWriter.write env s id t1 = TargetWriter.write env s id t2 := by
  have e1 : defaultTargetWrites t1 = defaultTargetWrites t2 := by
    simp [defaultTargetWrites, h1, h2, h3, h4]
  have e2 : scopedTargetWrites id t1 = scopedTargetWrites id t2 := by
    simp [scopedTargetWrites, h1, h2, h3, h4]
  exact ⟨e1, e2, by rw [TargetWriter.write_default, e1, TargetWriter.write_default],
    by rw [TargetWriter.write, e2, TargetWriter.write]⟩

/-- The test target with a different (nonzero) `behind` count. -/
def behindTarget : Target := { sampleTarget with behind := 7 }

/-- Witness for C10: the test target and the same target `7` commits
behind produce identical calls. -/
theorem C10_behind_not_persisted_witness :
    (sampleTarget.branch_name = behindTarget.branch_name
      ∧ sampleTarget.behind ≠ behindTarget.behind)
    ∧ TargetWriter.write_default Env.allOk emptyStore sampleTarget
      = TargetWriter.write_default Env.allOk emptyStore behindTarget := by
  refine ⟨⟨rfl, by decide⟩, ?_⟩
  exact (C10_behind_not_persisted sampleTarget behindTarget Env.allOk emptyStore
    "branch_1" rfl rfl rfl rfl).2.2.1

end GitButler
